import Mathlib

/-!
Shallow embedding of the paylio-go HTTP transport core and error taxonomy
(`http_client.go`, `errors.go`, `coverage_test.go` helpers), together with
theorems settling the specification claims about them.

Conventions of the embedding:
* Go `int` status codes become `Int`.
* A decoded JSON value (Go `any` produced by `encoding/json`) becomes the
  inductive `Json`; a Go `map[string]any` becomes `List (String × Json)`
  with unique keys, looked up via `List.lookup`.
* External effects (the JSON parser on raw bytes, `url.Parse`,
  `json.Marshal`, `http.NewRequestWithContext`, `client.Do`, `io.ReadAll`)
  are modelled as oracle inputs holding the outcome the external call
  produced; the control flow around them is translated from the source.
* `fmt.Sprintf("prefix: %v", err)` becomes `"prefix: " ++ e` where `e` is
  the rendered error text.
-/

namespace Paylio

/-- JSON values as decoded by Go `encoding/json` into untyped `any`:
`nil`, `bool`, `float64`, `string`, `[]any`, `map[string]any`. -/
inductive Json : Type where
  | null : Json
  | bool (b : Bool) : Json
  | num (q : Int) : Json
  | str (s : String) : Json
  | arr (elems : List Json) : Json
  | obj (fields : List (String × Json)) : Json

/-- Whether a JSON value is an object. -/
def Json.isObj : Json → Bool
  | .obj _ => true
  | _ => false

/-- Outcome of reading the response body text as JSON: either the body is not
valid JSON at all, or it is valid JSON with the given parse tree. -/
inductive BodyParse : Type where
  | invalid : BodyParse
  | valid (j : Json) : BodyParse

/-- Go `json.Unmarshal(bodyBytes, &jsonBody)` for `jsonBody : map[string]any`,
followed by the source's `if err != nil { jsonBody = nil }`: only a JSON
object populates the map; a literal `null` succeeds but leaves the map `nil`;
any other JSON value (array, string, number, bool) errors, and invalid JSON
errors. In every non-object case the Go variable ends up `nil`, here `none`. -/
def goUnmarshalMap : BodyParse → Option (List (String × Json))
  | .valid (.obj fields) => some fields
  | _ => none

/-- The six error kinds of `errors.go` (`APIError`, `AuthenticationError`,
`InvalidRequestError`, `NotFoundError`, `RateLimitError`,
`APIConnectionError`), distinguished only by tag over a shared payload. -/
inductive ErrKind : Type where
  | apiError : ErrKind
  | authenticationError : ErrKind
  | invalidRequestError : ErrKind
  | notFoundError : ErrKind
  | rateLimitError : ErrKind
  | apiConnectionError : ErrKind
deriving DecidableEq

/-- Model of `ErrorParams` from `errors.go`: the shared payload of every error kind.
Go zero values (`0`, `""`, `nil`) appear explicitly at construction sites. -/
structure ErrorParams : Type where
  message : String
  httpStatus : Int
  httpBody : String
  jsonBody : Option (List (String × Json))
  headers : List (String × String)
  code : String

/-- A constructed SDK error: one of the six kinds wrapping the shared
`PaylioError` payload (`newPaylioError` copies `ErrorParams` field by field,
so the payload is the params verbatim). -/
structure PaylioError : Type where
  kind : ErrKind
  params : ErrorParams

/-- Constructor `NewAPIError` of `errors.go`. -/
def NewAPIError (p : ErrorParams) : PaylioError := ⟨.apiError, p⟩

/-- Constructor `NewAuthenticationError` of `errors.go`. -/
def NewAuthenticationError (p : ErrorParams) : PaylioError := ⟨.authenticationError, p⟩

/-- Constructor `NewInvalidRequestError` of `errors.go`. -/
def NewInvalidRequestError (p : ErrorParams) : PaylioError := ⟨.invalidRequestError, p⟩

/-- Constructor `NewNotFoundError` of `errors.go`. -/
def NewNotFoundError (p : ErrorParams) : PaylioError := ⟨.notFoundError, p⟩

/-- Constructor `NewRateLimitError` of `errors.go`. -/
def NewRateLimitError (p : ErrorParams) : PaylioError := ⟨.rateLimitError, p⟩

/-- Constructor `NewAPIConnectionError` of `errors.go`. -/
def NewAPIConnectionError (p : ErrorParams) : PaylioError := ⟨.apiConnectionError, p⟩

/-- Params with only `Message` set, as in the Go composite literal
`ErrorParams{Message: m}`: every other field keeps its zero value. -/
def paramsOnlyMessage (m : String) : ErrorParams := ⟨m, 0, "", none, [], ""⟩

/-- Function `errorClassForStatus` of `errors.go`: the status-to-kind switch. -/
def errorClassForStatus (status : Int) (p : ErrorParams) : PaylioError :=
  if status = 401 then NewAuthenticationError p
  else if status = 400 then NewInvalidRequestError p
  else if status = 404 then NewNotFoundError p
  else if status = 429 then NewRateLimitError p
  else NewAPIError p

/-- The state of an `*http.Response` as `handleResponse` consumes it:
status code, header (Go `http.Header`, a map from key to value list, here an
association list with unique keys), the outcome of `io.ReadAll(resp.Body)`
(`some e` on read error), the body text when the read succeeds, and the JSON
parse outcome of that body text. -/
structure HttpResponse : Type where
  statusCode : Int
  header : List (String × List String)
  readErr : Option String
  body : String
  bodyJson : BodyParse

/-- The header-flattening loop of `handleResponse`:
`for k, v := range resp.Header { if len(v) > 0 { headers[k] = v[0] } }` —
keep the first value of each key, drop keys with an empty value list. -/
def extractHeaders (h : List (String × List String)) : List (String × String) :=
  h.filterMap fun kv =>
    match kv.2 with
    | [] => none
    | v :: _ => some (kv.1, v)

/-- The non-2xx message/code derivation of `handleResponse`
(`errorCode := ""`, `errorMessage := httpBody`, then the
`if errField, ok := jsonBody["error"]` switch, with the `detail` probe only
in the `else` of the `error`-key presence test). Returns
`(errorMessage, errorCode)`. -/
def deriveErrorInfo (httpBody : String) (jsonBody : Option (List (String × Json))) :
    String × String :=
  match jsonBody with
  | none => (httpBody, "")
  | some fields =>
    match fields.lookup "error" with
    | some (Json.obj efields) =>
      ((match efields.lookup "message" with
        | some (Json.str m) => m
        | _ => httpBody),
       (match efields.lookup "code" with
        | some (Json.str c) => c
        | _ => ""))
    | some (Json.str s) => (s, "")
    | some _ => (httpBody, "")
    | none =>
      match fields.lookup "detail" with
      | some (Json.str d) => (d, "")
      | _ => (httpBody, "")

/-- Function `handleResponse` of `http_client.go`: read the body, flatten headers,
attempt the JSON parse, then branch on 2xx versus non-2xx. -/
def handleResponse (resp : HttpResponse) :
    Except PaylioError (List (String × Json)) :=
  match resp.readErr with
  | some e =>
    .error (NewAPIConnectionError (paramsOnlyMessage ("failed to read response body: " ++ e)))
  | none =>
    let httpStatus := resp.statusCode
    let httpBody := resp.body
    let headers := extractHeaders resp.header
    let jsonBody := goUnmarshalMap resp.bodyJson
    if 200 ≤ httpStatus ∧ httpStatus < 300 then
      match jsonBody with
      | none =>
        .error (NewAPIError ⟨"Invalid JSON in response body", httpStatus, httpBody, none, [], ""⟩)
      | some m => .ok m
    else
      let info := deriveErrorInfo httpBody jsonBody
      .error (errorClassForStatus httpStatus
        ⟨info.1, httpStatus, httpBody, jsonBody, headers, info.2⟩)

/-- Model of `requestOptions` from `http_client.go`: optional query parameters and an
optional JSON body. -/
structure RequestOptions : Type where
  params : Option (List (String × String))
  jsonBody : Option (List (String × Json))

/-- Outcome of `hc.client.Do(req)`: either a response, or a failure carrying
the rendered network error text together with whether `ctx.Err()` was
`context.DeadlineExceeded` at that point. -/
inductive SendResult : Type where
  | ok (resp : HttpResponse) : SendResult
  | err (errText : String) (deadlineExceeded : Bool) : SendResult

/-- Oracle inputs for the external calls made by `request`, in source order:
`url.Parse(fullURL)` (consulted only when query params are supplied),
`json.Marshal(opts.JSONBody)` (consulted only when a JSON body is supplied),
`http.NewRequestWithContext`, and `hc.client.Do`. `some e` is a failure with
rendered error text `e`. -/
structure RequestEnv : Type where
  parseErr : Option String
  marshalErr : Option String
  newReqErr : Option String
  send : SendResult

/-- The `Params` field of an optional `*requestOptions`. -/
def optParams : Option RequestOptions → Option (List (String × String))
  | some o => o.params
  | none => none

/-- The `JSONBody` field of an optional `*requestOptions`. -/
def optJsonBody : Option RequestOptions → Option (List (String × Json))
  | some o => o.jsonBody
  | none => none

/-- Function `request` of `http_client.go` (the error paths and dispatch; header
setting and URL text construction carry no branching and are elided):
query-param URL parse, body marshalling, request creation, send with the
timeout check `ctx.Err() == context.DeadlineExceeded`, then
`handleResponse`. -/
def request (opts : Option RequestOptions) (env : RequestEnv) :
    Except PaylioError (List (String × Json)) :=
  match optParams opts, env.parseErr with
  | some _, some e =>
    .error (NewAPIConnectionError (paramsOnlyMessage ("failed to parse URL: " ++ e)))
  | _, _ =>
    match optJsonBody opts, env.marshalErr with
    | some _, some e =>
      .error (NewAPIConnectionError (paramsOnlyMessage ("failed to marshal body: " ++ e)))
    | _, _ =>
      match env.newReqErr with
      | some e =>
        .error (NewAPIConnectionError (paramsOnlyMessage ("failed to create request: " ++ e)))
      | none =>
        match env.send with
        | .err _ true =>
          .error (NewAPIConnectionError (paramsOnlyMessage "Request timed out"))
        | .err e false =>
          .error (NewAPIConnectionError (paramsOnlyMessage ("Connection error: " ++ e)))
        | .ok resp => handleResponse resp

/-- Model of `PaginatedList[T]` from the repository: the generic paginated response
container. -/
structure PaginatedList (T : Type) : Type where
  items : List T
  total : Int
  page : Int
  pageSize : Int
  totalPages : Int

/-- Method `PaginatedList.HasMore`: `p.Page > 0 && p.Page < p.TotalPages`. -/
def PaginatedList.hasMore {T : Type} (p : PaginatedList T) : Bool :=
  decide (0 < p.page) && decide (p.page < p.totalPages)

/-- Function `unmarshalTo[T]` of the repository: round-trip an untyped mapping through
JSON text into the target shape `T`. The serialization engine
(`json.Marshal` / `json.Unmarshal` at type `T`) is abstracted as the two
function arguments; the wrapping of either failure follows
`fmt.Errorf("failed to marshal response: %w", err)` and
`fmt.Errorf("failed to unmarshal response: %w", err)`. -/
def unmarshalTo {T : Type} (marshal : List (String × Json) → Except String String)
    (unmarshal : String → Except String T)
    (data : List (String × Json)) : Except String T :=
  match marshal data with
  | .error e => .error ("failed to marshal response: " ++ e)
  | .ok b =>
    match unmarshal b with
    | .error e => .error ("failed to unmarshal response: " ++ e)
    | .ok result => .ok result

/-- Accessor for the kind of the error in a pipeline outcome (`none` on
success). -/
def resultKind {α : Type} : Except PaylioError α → Option ErrKind
  | .error e => some e.kind
  | .ok _ => none

/-- Accessor for the headers carried by the error in a pipeline outcome
(`none` on success). -/
def resultHeaders {α : Type} : Except PaylioError α → Option (List (String × String))
  | .error e => some e.params.headers
  | .ok _ => none

/-- The spec's status-to-kind mapping, written from its words:
401→AuthenticationError, 400→InvalidRequestError, 404→NotFoundError,
429→RateLimitError, anything else→generic APIError. -/
def specStatusKind (status : Int) : ErrKind :=
  if status = 401 then .authenticationError
  else if status = 400 then .invalidRequestError
  else if status = 404 then .notFoundError
  else if status = 429 then .rateLimitError
  else .apiError

/-- The claim's message/code derivation, written from its words as a flat
priority chain of predicates on the parsed body: (a) `error` field is an
object → extract string `code`/`message`, message falling back to raw body;
(b) else `error` is a plain string → that string, no code; (c) else the body
has a string `detail` field → that string; (d) else the raw body text. -/
def specErrorInfo (rawBody : String) (parsed : Option (List (String × Json))) :
    String × String :=
  match parsed with
  | none => (rawBody, "")
  | some fields =>
    match fields.lookup "error" with
    | some (Json.obj efields) =>
      ((match efields.lookup "message" with
        | some (Json.str m) => m
        | _ => rawBody),
       (match efields.lookup "code" with
        | some (Json.str c) => c
        | _ => ""))
    | some (Json.str s) => (s, "")
    | _ =>
      match fields.lookup "detail" with
      | some (Json.str d) => (d, "")
      | _ => (rawBody, "")

/-- The amended derivation, written from the amended claim's words: as the
original, except that when the `error` key is present with a value that is
neither an object nor a string, the message is the raw body text and the
`detail` field is not consulted; `detail` is only consulted when the `error`
key is absent entirely. -/
def amendedErrorInfo (rawBody : String) (parsed : Option (List (String × Json))) :
    String × String :=
  match parsed with
  | none => (rawBody, "")
  | some fields =>
    match fields.lookup "error" with
    | none =>
      match fields.lookup "detail" with
      | some (Json.str d) => (d, "")
      | _ => (rawBody, "")
    | some (Json.obj efields) =>
      ((match efields.lookup "message" with
        | some (Json.str m) => m
        | _ => rawBody),
       (match efields.lookup "code" with
        | some (Json.str c) => c
        | _ => ""))
    | some (Json.str s) => (s, "")
    | some _ => (rawBody, "")

/-- Parsed fields of the body `\x7b"error": null, "detail": "d"\x7d`: the
`error` key is present holding JSON `null`, and a string `detail` is also
present. -/
def cexFields : List (String × Json) := [("error", Json.null), ("detail", Json.str "d")]

/-- The raw text of that body. -/
def cexBody : String := "\x7b\x22error\x22: null, \x22detail\x22: \x22d\x22\x7d"

/-- A concrete 500 response carrying that body. -/
def cexResp : HttpResponse :=
  ⟨500, [], none, cexBody, .valid (.obj cexFields)⟩

/-- A concrete 500 response with a plain-text body, used as a witness
input. -/
def wResp500 : HttpResponse :=
  ⟨500, [("Content-Type", ["text/plain"])], none, "Internal Server Error", .invalid⟩

/-- A concrete 200 response whose body is not valid JSON. -/
def wResp200Bad : HttpResponse :=
  ⟨200, [], none, "not json", .invalid⟩

/-- A concrete 200 response whose body parses to the object
`\x7b"ok": true\x7d`. -/
def wResp200Ok : HttpResponse :=
  ⟨200, [], none, "\x7b\x22ok\x22: true\x7d", .valid (.obj [("ok", Json.bool true)])⟩

/-- A concrete 404 response whose body is the JSON array `[1]`: valid JSON
that is not an object. -/
def wResp404Arr : HttpResponse :=
  ⟨404, [("X-Request-Id", ["abc"])], none, "[1]", .valid (.arr [Json.num 1])⟩

/-- A concrete 200 response whose body is the JSON literal `null`: valid
JSON that is not an object. -/
def wResp200Null : HttpResponse :=
  ⟨200, [], none, "null", .valid Json.null⟩

/-! ## Helper lemmas shared by the claim proofs -/

lemma errorClassForStatus_kind (s : Int) (p : ErrorParams) :
    (errorClassForStatus s p).kind = specStatusKind s := by
  simp only [errorClassForStatus, specStatusKind, NewAuthenticationError,
    NewInvalidRequestError, NewNotFoundError, NewRateLimitError, NewAPIError]
  split
  · rfl
  · split
    · rfl
    · split
      · rfl
      · split <;> rfl

lemma handleResponse_non2xx_eq (resp : HttpResponse) (hr : resp.readErr = none)
    (hs : ¬(200 ≤ resp.statusCode ∧ resp.statusCode < 300)) :
    handleResponse resp = .error (errorClassForStatus resp.statusCode
      ⟨(deriveErrorInfo resp.body (goUnmarshalMap resp.bodyJson)).1, resp.statusCode, resp.body,
        goUnmarshalMap resp.bodyJson, extractHeaders resp.header,
        (deriveErrorInfo resp.body (goUnmarshalMap resp.bodyJson)).2⟩) := by
  obtain ⟨s, hdr, re, b, bj⟩ := resp
  simp only at hr hs ⊢
  subst hr
  simp only [handleResponse]
  rw [if_neg hs]

lemma handleResponse_2xx_bad (resp : HttpResponse) (hr : resp.readErr = none)
    (hs : 200 ≤ resp.statusCode ∧ resp.statusCode < 300)
    (hj : goUnmarshalMap resp.bodyJson = none) :
    handleResponse resp =
      .error (NewAPIError ⟨"Invalid JSON in response body", resp.statusCode, resp.body,
        none, [], ""⟩) := by
  obtain ⟨s, hdr, re, b, bj⟩ := resp
  simp only at hr hs hj ⊢
  subst hr
  simp only [handleResponse, hj]
  rw [if_pos hs]

lemma handleResponse_2xx_ok (resp : HttpResponse) (hr : resp.readErr = none)
    (hs : 200 ≤ resp.statusCode ∧ resp.statusCode < 300)
    (m : List (String × Json)) (hj : goUnmarshalMap resp.bodyJson = some m) :
    handleResponse resp = .ok m := by
  obtain ⟨s, hdr, re, b, bj⟩ := resp
  simp only at hr hs hj ⊢
  subst hr
  simp only [handleResponse, hj]
  rw [if_pos hs]

/-! ## Theorems settling the claims -/

/-- C1. For every non-2xx HTTP response, the transport core classifies the
resulting error by status code as a total function: 401 yields
AuthenticationError, 400 InvalidRequestError, 404 NotFoundError, 429
RateLimitError, and every other status the generic APIError; no non-2xx
status is left unclassified. -/
theorem statusClassification_total (status : Int) (p : ErrorParams) (resp : HttpResponse)
    (_hstatus : ¬(200 ≤ status ∧ status < 300))
    (hr : resp.readErr = none)
    (hresp : ¬(200 ≤ resp.statusCode ∧ resp.statusCode < 300)) :
    (errorClassForStatus status p).kind = specStatusKind status ∧
    resultKind (handleResponse resp) = some (specStatusKind resp.statusCode) := by
  refine ⟨errorClassForStatus_kind status p, ?_⟩
  rw [handleResponse_non2xx_eq resp hr hresp]
  simp only [resultKind, errorClassForStatus_kind]

/-- Witness for `statusClassification_total` at status 401 and a concrete
500 response. -/
theorem statusClassification_total_witness :
    (errorClassForStatus 401 (paramsOnlyMessage "")).kind = specStatusKind 401 ∧
    resultKind (handleResponse wResp500) = some (specStatusKind wResp500.statusCode) :=
  statusClassification_total 401 (paramsOnlyMessage "") wResp500 (by decide) rfl (by decide)

/-- C3. A 2xx response whose body fails to parse as a JSON object yields a
generic APIError with message exactly "Invalid JSON in response body"
carrying the original status and raw body text; a 2xx response whose body
does parse yields the parsed mapping as success. -/
theorem twoxx_handling (resp : HttpResponse) (hr : resp.readErr = none)
    (hs : 200 ≤ resp.statusCode ∧ resp.statusCode < 300) :
    (goUnmarshalMap resp.bodyJson = none →
      handleResponse resp =
        .error (NewAPIError ⟨"Invalid JSON in response body", resp.statusCode, resp.body,
          none, [], ""⟩)) ∧
    (∀ m, goUnmarshalMap resp.bodyJson = some m → handleResponse resp = .ok m) :=
  ⟨fun hj => handleResponse_2xx_bad resp hr hs hj,
   fun m hj => handleResponse_2xx_ok resp hr hs m hj⟩

/-- Witness for `twoxx_handling`: a concrete 200 response with an invalid
body fails as stated, and a concrete 200 response with an object body
succeeds with the parsed mapping. -/
theorem twoxx_handling_witness :
    handleResponse wResp200Bad =
      .error (NewAPIError ⟨"Invalid JSON in response body", wResp200Bad.statusCode,
        wResp200Bad.body, none, [], ""⟩) ∧
    handleResponse wResp200Ok = .ok [("ok", Json.bool true)] :=
  ⟨(twoxx_handling wResp200Bad rfl (by decide)).1 rfl,
   (twoxx_handling wResp200Ok rfl (by decide)).2 [("ok", Json.bool true)] rfl⟩

/-- C4. `HasMore` on a paginated list returns true iff `page > 0` and
`page < totalPages`; in particular page 0 and `page = totalPages` both
yield false. -/
theorem hasMore_iff {T : Type} (p : PaginatedList T) :
    (p.hasMore = true ↔ (0 < p.page ∧ p.page < p.totalPages)) ∧
    (p.page = 0 → p.hasMore = false) ∧
    (p.page = p.totalPages → p.hasMore = false) := by
  refine ⟨?_, ?_, ?_⟩
  · simp [PaginatedList.hasMore]
  · intro h
    simp [PaginatedList.hasMore, h]
  · intro h
    simp [PaginatedList.hasMore, h]

/-- Witness for `hasMore_iff`: page 0 of 0 and page 3 of 3 yield false,
page 1 of 3 yields true. -/
theorem hasMore_iff_witness :
    ((⟨[], 0, 0, 10, 0⟩ : PaginatedList Unit).hasMore = false) ∧
    ((⟨[], 30, 3, 10, 3⟩ : PaginatedList Unit).hasMore = false) ∧
    ((⟨[], 30, 1, 10, 3⟩ : PaginatedList Unit).hasMore = true) :=
  ⟨(hasMore_iff (⟨[], 0, 0, 10, 0⟩ : PaginatedList Unit)).2.1 rfl,
   (hasMore_iff (⟨[], 30, 3, 10, 3⟩ : PaginatedList Unit)).2.2 rfl,
   (hasMore_iff (⟨[], 30, 1, 10, 3⟩ : PaginatedList Unit)).1.2 (by decide)⟩

lemma errorClassForStatus_params (s : Int) (p : ErrorParams) :
    (errorClassForStatus s p).params = p := by
  simp only [errorClassForStatus, NewAuthenticationError, NewInvalidRequestError,
    NewNotFoundError, NewRateLimitError, NewAPIError]
  split
  · rfl
  · split
    · rfl
    · split
      · rfl
      · split <;> rfl

lemma deriveErrorInfo_eq_amended (b : String) (jb : Option (List (String × Json))) :
    deriveErrorInfo b jb = amendedErrorInfo b jb := by
  cases jb with
  | none => rfl
  | some fields =>
    simp only [deriveErrorInfo, amendedErrorInfo]
    cases h : fields.lookup "error" with
    | none => rfl
    | some j => cases j <;> rfl

lemma goUnmarshalMap_nonObj (j : Json) (hj : j.isObj = false) :
    goUnmarshalMap (.valid j) = none := by
  cases j <;> simp_all [Json.isObj, goUnmarshalMap]

/-- C2 counterexample. The claim's flat priority chain says the 500 response
with body `\x7b"error": null, "detail": "d"\x7d` gets message "d" (the
`error` field is neither an object nor a string, and `detail` is a string),
but the code, which probes `detail` only when the `error` key is absent,
uses the raw body text as the message instead. -/
theorem errorInfoPriority_cex :
    specErrorInfo cexBody (some cexFields) = ("d", "") ∧
    handleResponse cexResp =
      .error (NewAPIError ⟨cexBody, 500, cexBody, some cexFields, [], ""⟩) ∧
    cexBody ≠ "d" :=
  ⟨rfl, rfl, by decide⟩

/-- C2 amended. For every non-2xx response, the error message and optional
code are derived as: `error`-object → string `code`/`message` with raw-body
fallback for a non-string message; else `error`-string → that string, no
code; else, when the `error` key is present with any other type, the raw
body text (`detail` is not consulted); else a string `detail` field; else
the raw body text. -/
theorem errorInfoPriority_amended (resp : HttpResponse) (hr : resp.readErr = none)
    (hs : ¬(200 ≤ resp.statusCode ∧ resp.statusCode < 300)) :
    handleResponse resp = .error (errorClassForStatus resp.statusCode
      ⟨(amendedErrorInfo resp.body (goUnmarshalMap resp.bodyJson)).1, resp.statusCode, resp.body,
        goUnmarshalMap resp.bodyJson, extractHeaders resp.header,
        (amendedErrorInfo resp.body (goUnmarshalMap resp.bodyJson)).2⟩) := by
  rw [handleResponse_non2xx_eq resp hr hs]
  simp only [deriveErrorInfo_eq_amended]

/-- Witness for `errorInfoPriority_amended` at the concrete 500 response. -/
theorem errorInfoPriority_amended_witness :
    handleResponse cexResp = .error (errorClassForStatus cexResp.statusCode
      ⟨(amendedErrorInfo cexResp.body (goUnmarshalMap cexResp.bodyJson)).1, cexResp.statusCode,
        cexResp.body, goUnmarshalMap cexResp.bodyJson, extractHeaders cexResp.header,
        (amendedErrorInfo cexResp.body (goUnmarshalMap cexResp.bodyJson)).2⟩) :=
  errorInfoPriority_amended cexResp rfl (by decide)

/-- C8. Every non-2xx response yields a classified error whose headers are
exactly the mapping extracted from the response headers (each header with a
value contributing its value, preserved verbatim through classification),
alongside the derived message, the status, the raw body, the parsed body if
any, and the extracted code. -/
theorem errorCarriesContext (resp : HttpResponse) (hr : resp.readErr = none)
    (hs : ¬(200 ≤ resp.statusCode ∧ resp.statusCode < 300)) :
    resultHeaders (handleResponse resp) = some (extractHeaders resp.header) ∧
    (∀ k v, (k, [v]) ∈ resp.header → (k, v) ∈ extractHeaders resp.header) ∧
    (∀ s p, (errorClassForStatus s p).params = p) ∧
    handleResponse resp = .error (errorClassForStatus resp.statusCode
      ⟨(deriveErrorInfo resp.body (goUnmarshalMap resp.bodyJson)).1, resp.statusCode, resp.body,
        goUnmarshalMap resp.bodyJson, extractHeaders resp.header,
        (deriveErrorInfo resp.body (goUnmarshalMap resp.bodyJson)).2⟩) := by
  refine ⟨?_, ?_, errorClassForStatus_params, handleResponse_non2xx_eq resp hr hs⟩
  · rw [handleResponse_non2xx_eq resp hr hs]
    simp only [resultHeaders, errorClassForStatus_params]
  · intro k v hin
    exact List.mem_filterMap.2 ⟨(k, [v]), hin, rfl⟩

/-- Witness for `errorCarriesContext` at a concrete 404 response with one
single-valued header. -/
theorem errorCarriesContext_witness :
    resultHeaders (handleResponse wResp404Arr) = some (extractHeaders wResp404Arr.header) ∧
    ("X-Request-Id", "abc") ∈ extractHeaders wResp404Arr.header :=
  ⟨(errorCarriesContext wResp404Arr rfl (by decide)).1,
   (errorCarriesContext wResp404Arr rfl (by decide)).2.1 "X-Request-Id" "abc" (by decide)⟩

/-- C9. A response whose body is valid JSON but not a JSON object is treated
exactly as if the body were unparseable: the parsed body is absent; on 2xx
the result is the APIError with message "Invalid JSON in response body"; on
non-2xx the error has no parsed body and its message falls back to the raw
body text. -/
theorem nonObjectJson_asInvalid (resp : HttpResponse) (j : Json)
    (hbj : resp.bodyJson = .valid j) (hj : j.isObj = false) (hr : resp.readErr = none) :
    goUnmarshalMap resp.bodyJson = none ∧
    handleResponse resp =
      handleResponse ⟨resp.statusCode, resp.header, resp.readErr, resp.body, .invalid⟩ ∧
    (200 ≤ resp.statusCode ∧ resp.statusCode < 300 →
      handleResponse resp = .error (NewAPIError ⟨"Invalid JSON in response body",
        resp.statusCode, resp.body, none, [], ""⟩)) ∧
    (¬(200 ≤ resp.statusCode ∧ resp.statusCode < 300) →
      handleResponse resp = .error (errorClassForStatus resp.statusCode
        ⟨resp.body, resp.statusCode, resp.body, none, extractHeaders resp.header, ""⟩)) := by
  have h0 : goUnmarshalMap resp.bodyJson = none := by
    rw [hbj]; exact goUnmarshalMap_nonObj j hj
  refine ⟨h0, ?_, ?_, ?_⟩
  · obtain ⟨s, hdr, re, b, bj⟩ := resp
    simp only at hbj h0 ⊢
    subst hbj
    have h1 : goUnmarshalMap BodyParse.invalid = none := rfl
    simp only [handleResponse, h0, h1]
  · intro hs
    exact handleResponse_2xx_bad resp hr hs h0
  · intro hs
    rw [handleResponse_non2xx_eq resp hr hs]
    simp only [h0, deriveErrorInfo]


/-- Witness for `nonObjectJson_asInvalid`: a 404 response with an array body
falls back to raw-body message with no parsed body, and a 200 response with
a `null` body fails as invalid JSON. -/
theorem nonObjectJson_asInvalid_witness :
    handleResponse wResp404Arr = .error (errorClassForStatus wResp404Arr.statusCode
      ⟨wResp404Arr.body, wResp404Arr.statusCode, wResp404Arr.body, none,
        extractHeaders wResp404Arr.header, ""⟩) ∧
    handleResponse wResp200Null = .error (NewAPIError ⟨"Invalid JSON in response body",
      wResp200Null.statusCode, wResp200Null.body, none, [], ""⟩) :=
  ⟨(nonObjectJson_asInvalid wResp404Arr (.arr [Json.num 1]) rfl rfl rfl).2.2.2 (by decide),
   (nonObjectJson_asInvalid wResp200Null Json.null rfl rfl rfl).2.2.1 (by decide)⟩

/-- C10. The header mapping attached to a classified error keeps exactly the
first value of each response header key: a pair is in the mapping iff the
response header holds that key with that value first; a key with an empty
value list contributes nothing. -/
theorem headersFirstValueOnly (resp : HttpResponse) (k v : String)
    (hr : resp.readErr = none)
    (hs : ¬(200 ≤ resp.statusCode ∧ resp.statusCode < 300)) :
    resultHeaders (handleResponse resp) = some (extractHeaders resp.header) ∧
    ((k, v) ∈ extractHeaders resp.header ↔ ∃ rest, (k, v :: rest) ∈ resp.header) := by
  constructor
  · rw [handleResponse_non2xx_eq resp hr hs]
    simp only [resultHeaders, errorClassForStatus_params]
  · constructor
    · intro hmem
      rcases List.mem_filterMap.1 hmem with ⟨⟨k2, vs⟩, hin, hf⟩
      cases vs with
      | nil => simp at hf
      | cons x rest =>
        simp only [Option.some.injEq, Prod.mk.injEq] at hf
        obtain ⟨hk, hx⟩ := hf
        subst hk
        subst hx
        exact ⟨rest, hin⟩
    · rintro ⟨rest, hin⟩
      exact List.mem_filterMap.2 ⟨(k, v :: rest), hin, rfl⟩

/-- Witness for `headersFirstValueOnly` at the concrete 404 response. -/
theorem headersFirstValueOnly_witness :
    resultHeaders (handleResponse wResp404Arr) = some (extractHeaders wResp404Arr.header) ∧
    (("X-Request-Id", "abc") ∈ extractHeaders wResp404Arr.header ↔
      ∃ rest, ("X-Request-Id", "abc" :: rest) ∈ wResp404Arr.header) :=
  headersFirstValueOnly wResp404Arr "X-Request-Id" "abc" rfl (by decide)

lemma connectionMsg_ne_timeoutMsg (e : String) :
    "Connection error: " ++ e ≠ "Request timed out" := by
  intro h
  have hl := congrArg String.length h
  rw [String.length_append] at hl
  have h18 : ("Connection error: " : String).length = 18 := by decide
  have h17 : ("Request timed out" : String).length = 17 := by decide
  omega

lemma marshalMsg_ne_unmarshalMsg (e1 e2 : String) :
    "failed to marshal response: " ++ e1 ≠ "failed to unmarshal response: " ++ e2 := by
  intro h
  have hd : ("failed to marshal response: " : String).data ++ e1.data
      = ("failed to unmarshal response: " : String).data ++ e2.data := congrArg String.data h
  have h10 := congrArg (fun l => l.get? 10) hd
  simp only [List.getElem?_append_left
      (by decide : 10 < ("failed to marshal response: " : String).data.length),
    List.getElem?_append_left
      (by decide : 10 < ("failed to unmarshal response: " : String).data.length),
    List.get?_eq_getElem?] at h10
  exact absurd h10 (by decide)

lemma request_segments (opts : Option RequestOptions) (snd : SendResult) :
    request opts ⟨none, none, none, snd⟩ =
      (match snd with
        | .err _ true => .error (NewAPIConnectionError (paramsOnlyMessage "Request timed out"))
        | .err e false =>
          .error (NewAPIConnectionError (paramsOnlyMessage ("Connection error: " ++ e)))
        | .ok resp => handleResponse resp) := by
  rcases opts with _ | ⟨ps, jb⟩
  · rfl
  · rcases ps with _ | p <;> rcases jb with _ | j <;> rfl

/-- C5. The decoder round-trips the untyped mapping through a serialization
engine: an encode-step failure yields an error whose message wraps it as
"failed to marshal response: ...", a decode-step failure yields "failed to
unmarshal response: ...", a double success yields the decoded value, and
the two failure messages can never coincide, so the message identifies the
failing step. -/
theorem unmarshalTo_roundtrip {T : Type} (marshal : List (String × Json) → Except String String)
    (unmarshal : String → Except String T) (data : List (String × Json)) :
    (∀ e, marshal data = .error e →
      unmarshalTo marshal unmarshal data = .error ("failed to marshal response: " ++ e)) ∧
    (∀ b e, marshal data = .ok b → unmarshal b = .error e →
      unmarshalTo marshal unmarshal data = .error ("failed to unmarshal response: " ++ e)) ∧
    (∀ b r, marshal data = .ok b → unmarshal b = .ok r →
      unmarshalTo marshal unmarshal data = .ok r) ∧
    (∀ e1 e2, ("failed to marshal response: " ++ e1 : String) ≠
      "failed to unmarshal response: " ++ e2) := by
  refine ⟨?_, ?_, ?_, marshalMsg_ne_unmarshalMsg⟩
  · intro e he
    simp [unmarshalTo, he]
  · intro b e hb he
    simp [unmarshalTo, hb, he]
  · intro b r hb hok
    simp [unmarshalTo, hb, hok]

/-- Witness for `unmarshalTo_roundtrip` with concrete engines: a succeeding
round trip returns the decoded value, and a failing encode step wraps its
error text. -/
theorem unmarshalTo_roundtrip_witness :
    @unmarshalTo Int (fun _ => .ok "body-text") (fun _ => .ok 7) [] = .ok 7 ∧
    @unmarshalTo Int (fun _ => .error "unsupported value") (fun _ => .ok 7) [] =
      .error ("failed to marshal response: " ++ "unsupported value") :=
  ⟨(unmarshalTo_roundtrip (fun _ => .ok "body-text") (fun _ => .ok 7) []).2.2.1
      "body-text" 7 rfl rfl,
   (unmarshalTo_roundtrip (fun _ => .error "unsupported value") (fun _ => .ok 7) []).1
      "unsupported value" rfl⟩

/-- C6. When the deadline elapses before completion the send failure becomes
a ConnectionError with message exactly "Request timed out"; every other send
failure becomes a ConnectionError wrapping the underlying network error
text; and the two messages are always distinct. -/
theorem timeoutMessageDistinct (opts : Option RequestOptions) (env : RequestEnv) (et : String)
    (hp : env.parseErr = none) (hm : env.marshalErr = none) (hn : env.newReqErr = none) :
    (env.send = .err et true →
      request opts env = .error (NewAPIConnectionError (paramsOnlyMessage "Request timed out"))) ∧
    (env.send = .err et false →
      request opts env =
        .error (NewAPIConnectionError (paramsOnlyMessage ("Connection error: " ++ et)))) ∧
    ("Connection error: " ++ et ≠ "Request timed out") := by
  obtain ⟨pe, me, nr, snd⟩ := env
  simp only at hp hm hn ⊢
  subst hp; subst hm; subst hn
  refine ⟨?_, ?_, connectionMsg_ne_timeoutMsg et⟩
  · intro hsend
    subst hsend
    exact request_segments opts (.err et true)
  · intro hsend
    subst hsend
    exact request_segments opts (.err et false)

/-- Witness for `timeoutMessageDistinct`: a timed-out send and a refused
connection at concrete inputs. -/
theorem timeoutMessageDistinct_witness :
    request none ⟨none, none, none, .err "i/o timeout" true⟩ =
      .error (NewAPIConnectionError (paramsOnlyMessage "Request timed out")) ∧
    request none ⟨none, none, none, .err "connection refused" false⟩ =
      .error (NewAPIConnectionError (paramsOnlyMessage ("Connection error: " ++
        "connection refused"))) ∧
    ("Connection error: " ++ "connection refused" ≠ "Request timed out") :=
  ⟨(timeoutMessageDistinct none ⟨none, none, none, .err "i/o timeout" true⟩
      "i/o timeout" rfl rfl rfl).1 rfl,
   (timeoutMessageDistinct none ⟨none, none, none, .err "connection refused" false⟩
      "connection refused" rfl rfl rfl).2.1 rfl,
   (timeoutMessageDistinct none ⟨none, none, none, .err "connection refused" false⟩
      "connection refused" rfl rfl rfl).2.2⟩

/-- C7. A supplied JSON body whose serialization fails makes the request
fail locally with a ConnectionError citing the marshal failure, before any
HTTP exchange (the outcome does not depend on the send step), and the error
carries HTTP status 0. -/
theorem marshalFailurePreflight (o : RequestOptions) (env : RequestEnv) (e : String)
    (hb : o.jsonBody.isSome = true) (hp : env.parseErr = none) (hm : env.marshalErr = some e) :
    request (some o) env =
      .error (NewAPIConnectionError (paramsOnlyMessage ("failed to marshal body: " ++ e))) ∧
    (∀ snd, request (some o) ⟨env.parseErr, env.marshalErr, env.newReqErr, snd⟩ =
      request (some o) env) ∧
    (NewAPIConnectionError
      (paramsOnlyMessage ("failed to marshal body: " ++ e))).params.httpStatus = 0 ∧
    (NewAPIConnectionError
      (paramsOnlyMessage ("failed to marshal body: " ++ e))).kind = .apiConnectionError := by
  obtain ⟨pe, me, nr, snd⟩ := env
  obtain ⟨ps, jb⟩ := o
  simp only at hb hp hm ⊢
  subst hp; subst hm
  rcases jb with _ | j
  · simp [Option.isSome] at hb
  · refine ⟨?_, ?_, rfl, rfl⟩
    · rcases ps with _ | p <;> rfl
    · intro snd2
      rcases ps with _ | p <;> rfl

/-- Witness for `marshalFailurePreflight` at a concrete request with a body
and a failing marshal step. -/
theorem marshalFailurePreflight_witness :
    request (some ⟨none, some []⟩) ⟨none, some "unsupported value", none, .ok wResp200Ok⟩ =
      .error (NewAPIConnectionError
        (paramsOnlyMessage ("failed to marshal body: " ++ "unsupported value"))) :=
  (marshalFailurePreflight ⟨none, some []⟩
    ⟨none, some "unsupported value", none, .ok wResp200Ok⟩ "unsupported value"
    rfl rfl rfl).1

end Paylio
